import Mathlib

/-!
Shallow embedding of `src/main.py` (Simineq Markdown Editor).

The program is a single-window tkinter application.  We embed the pieces the
specification talks about:

* the `tk.Text` widget holding the document (its content, and its
  `edit_modified` flag, which Tk sets whenever an `insert` or `delete`
  actually changes the content; `get(1.0, tk.END)` returns the content
  followed by the implicit final newline of the widget);
* the mutable fields of `MarkdownEditor` (`current_file`, title, status bar,
  preview HTML);
* the filesystem, as a read map from paths to read results (not found /
  UTF-8 decode error / decoded text) plus a writability oracle;
* the blocking dialogs (`askyesnocancel`, `askopenfilename`,
  `asksaveasfilename`, `showerror`): their answers are passed in as
  arguments, and surfaced error boxes are recorded in an event list.

Every file operation (`new_file`, `open_file`, `save_file`, `save_as_file`,
`update_preview`) is translated statement by statement from the Python
source.
-/

/-- Result of reading a file as UTF-8 text: the `open`/`read` calls in
`open_file` can fail to open the file (e.g. it does not exist) or fail to
decode its bytes. -/
inductive ReadResult where
  | notFound
  | decodeError
  | ok (content : String)
deriving DecidableEq, Repr

/-- The filesystem, as seen by the editor: what reading each path yields,
and whether writing to a path succeeds. -/
structure FS where
  read : String → ReadResult
  writable : String → Bool

/-- Writing text `c` to a writable path `p`: afterwards reading `p` yields
`c` back (UTF-8 round trip of a valid string). -/
def FS.write (fs : FS) (p c : String) : FS :=
  { fs with read := fun q => if q = p then .ok c else fs.read q }

/-- The error boxes `messagebox.showerror` can surface, per spec §7. -/
inductive ErrKind where
  | readError
  | writeError
deriving DecidableEq, Repr

/-- The mutable state of the running `MarkdownEditor` instance:
the `tk.Text` widget (content and `edit_modified` flag), `current_file`,
the window title, the status bar text, the HTML of the preview widget, and the
log of error boxes surfaced to the user. -/
structure EditorState where
  buffer : String
  modified : Bool
  current_file : Option String
  titleText : String
  statusText : String
  previewHtml : String
  surfaced : List ErrKind
deriving DecidableEq, Repr

/-- Embedding of `text_editor.get(1.0, tk.END)`: the tk `Text` widget keeps an implicit
final newline after the last line, and a `get` up to `tk.END` includes it,
so the returned string is the content with `"\n"` appended. -/
def textGetEnd (st : EditorState) : String :=
  st.buffer ++ "\n"

/-- Embedding of `text_editor.delete(1.0, tk.END)`: clears the content; Tk sets the
modified flag of the widget whenever the content actually changes (a delete of
an already empty widget changes nothing). -/
def textDeleteAll (st : EditorState) : EditorState :=
  { st with buffer := "", modified := st.modified || st.buffer != "" }

/-- Embedding of `text_editor.insert(tk.END, s)`: appends `s`; Tk sets the modified flag
when the insert actually changes the content. -/
def textInsertEnd (st : EditorState) (s : String) : EditorState :=
  { st with buffer := st.buffer ++ s, modified := st.modified || s != "" }

/-- Embedding of `messagebox.showerror(...)`: records the surfaced blocking error box. -/
def showError (st : EditorState) (e : ErrKind) : EditorState :=
  { st with surfaced := st.surfaced ++ [e] }

/-- Embedding of `os.path.basename`, for the title set by `open_file`. -/
def basename (p : String) : String :=
  match (p.splitOn "/").getLast? with
  | some s => s
  | none => p

/-- Embedding of `MarkdownEditor.open_file`, line by line: the open-file dialog returns
`dialogPath` (`none` when cancelled, in which case nothing happens).  On a
chosen path, the `try` block opens the file, then deletes the buffer, then
evaluates `f.read()` and inserts its result, then sets `current_file`, the
title and the status.  If opening fails nothing has happened yet; if
decoding fails during `f.read()` the delete has already run, so the buffer
is left cleared.  Either failure is caught and surfaced via
`messagebox.showerror`. -/
def open_file (fs : FS) (dialogPath : Option String) (st : EditorState) :
    EditorState :=
  match dialogPath with
  | none => st
  | some p =>
    match fs.read p with
    | .notFound => showError st .readError
    | .decodeError => showError (textDeleteAll st) .readError
    | .ok content =>
      let st := textDeleteAll st
      let st := textInsertEnd st content
      { st with
        current_file := some p
        titleText := basename p ++ " - Simineq Markdown Editor"
        statusText := "已打开: " ++ p }

/-- The `if self.current_file:` branch of `MarkdownEditor.save_file`, for a
known path `p`: write `get(1.0, tk.END)` to `p`, clear the
modified flag and set the status, or surface a write error. -/
def saveToPath (fs : FS) (p : String) (st : EditorState) :
    EditorState × FS :=
  if fs.writable p then
    ({ st with modified := false, statusText := "已保存到: " ++ p },
      fs.write p (textGetEnd st))
  else
    (showError st .writeError, fs)

/-- Embedding of `MarkdownEditor.save_as_file`: the save-as dialog returns `saveDialog`
(`none` when cancelled, in which case nothing happens); on a chosen path it
sets `current_file` and calls `save_file`, which then takes the
known-path branch. -/
def save_as_file (fs : FS) (saveDialog : Option String) (st : EditorState) :
    EditorState × FS :=
  match saveDialog with
  | none => (st, fs)
  | some p => saveToPath fs p { st with current_file := some p }

/-- Embedding of `MarkdownEditor.save_file`: with a `current_file` set, write to it;
otherwise delegate to `save_as_file`. -/
def save_file (fs : FS) (saveDialog : Option String) (st : EditorState) :
    EditorState × FS :=
  match st.current_file with
  | some p => saveToPath fs p st
  | none => save_as_file fs saveDialog st

/-- Embedding of `MarkdownEditor.new_file`: if the widget reports modifications, ask the
three-way question (`choice`: `none` = cancel, aborting the whole
operation; `some true` = save first; `some false` = discard); then clear
the buffer, clear `current_file`, and set title and status.  No statement
resets the modified flag of the widget. -/
def new_file (fs : FS) (choice : Option Bool) (saveDialog : Option String)
    (st : EditorState) : EditorState × FS :=
  let finish : EditorState → FS → EditorState × FS := fun st fs =>
    let st := textDeleteAll st
    ({ st with
        current_file := none
        titleText := "未命名文档 - Simineq Markdown Editor"
        statusText := "已创建新文档" }, fs)
  if st.modified then
    match choice with
    | none => (st, fs)
    | some c =>
      let r := if c then save_file fs saveDialog st else (st, fs)
      finish r.1 r.2
  else
    finish st fs

/-- Does `pat` occur at the start of `l`? (helper for substring search). -/
def startsWithList : List Char → List Char → Bool
  | [], _ => true
  | _ :: _, [] => false
  | a :: as, b :: bs => a = b && startsWithList as bs

/-- Does `pat` occur anywhere in `l`? -/
def containsList (pat : List Char) : List Char → Bool
  | [] => startsWithList pat []
  | c :: cs => startsWithList pat (c :: cs) || containsList pat cs

/-- Substring occurrence on strings. -/
def strContains (s pat : String) : Bool :=
  containsList pat.toList s.toList

/-- Splits at newline characters, like Python line handling /
`String.splitOn "\n"`. -/
def splitLines : List Char → List (List Char)
  | [] => [[]]
  | c :: rest =>
    if c = '\n' then [] :: splitLines rest
    else
      match splitLines rest with
      | [] => [[c]]
      | l :: ls => (c :: l) :: ls

/-- One non-fence line of Markdown: ATX level-1 headings (`# `), blank
lines, and plain paragraph lines. -/
def mdLine (l : List Char) : String :=
  if startsWithList ['#', ' '] l then
    "<h1>" ++ String.mk (l.drop 2) ++ "</h1>\n"
  else if l = [] then "\n"
  else "<p>" ++ String.mk l ++ "</p>\n"

/-- Line-by-line conversion, tracking whether we are inside a fenced code
block (opened and closed by lines starting with three backquotes). -/
def mdLinesGo : Bool → List (List Char) → String
  | _, [] => ""
  | true, l :: ls =>
    if startsWithList ['\x60', '\x60', '\x60'] l then
      "</code></pre>\n" ++ mdLinesGo false ls
    else
      String.mk l ++ "\n" ++ mdLinesGo true ls
  | false, l :: ls =>
    if startsWithList ['\x60', '\x60', '\x60'] l then
      "<pre><code>" ++ mdLinesGo true ls
    else
      mdLine l ++ mdLinesGo false ls

/-- Modelled from the spec: the third-party conversion routine
`markdown2.markdown(content, extras=["fenced-code-blocks", "tables"])` is
not part of the sources of this repository.  Per spec §2/§4.2 it is a pure,
stateless, total function from text to an HTML string, with a fixed rule
set including fenced code blocks; per spec §8, `"# Title"` renders to a
level-1 heading element wrapping `"Title"`.  We model it as a total
line-based converter handling ATX level-1 headings, paragraphs, blank
lines and fenced code blocks. -/
def markdown (content : String) : String :=
  mdLinesGo false (splitLines content.toList)

/-- Embedding of `MarkdownEditor.update_preview`: read the full buffer via
`get(1.0, tk.END)`, convert it, and replace the HTML of the preview widget
wholesale. -/
def update_preview (st : EditorState) : EditorState :=
  { st with previewHtml := markdown (textGetEnd st) }

/-- The state at startup: empty unnamed document, unmodified, the preview
widget constructed with a placeholder HTML. -/
def initialState : EditorState :=
  { buffer := ""
    modified := false
    current_file := none
    titleText := "Simineq Markdown Editor"
    statusText := ""
    previewHtml := "<h3>开始编辑...</h3>"
    surfaced := [] }

/-- A filesystem fixture: path `a.md` holds the one-character text `x`,
everything is writable. -/
def fsX : FS :=
  { read := fun p => if p = "a.md" then .ok "x" else .notFound
    writable := fun _ => true }

/-- A filesystem fixture: path `bad.md` holds bytes that do not decode as
UTF-8, and nothing is writable. -/
def fsBad : FS :=
  { read := fun p => if p = "bad.md" then .decodeError else .notFound
    writable := fun _ => false }

/-- An editor-state fixture: a document loaded from `old.md`, edited to the
text `hello`, not yet saved. -/
def stDoc : EditorState :=
  { buffer := "hello"
    modified := true
    current_file := some "old.md"
    titleText := "old.md - Simineq Markdown Editor"
    statusText := ""
    previewHtml := "<p>hello</p>\n\n"
    surfaced := [] }

/-- Writing to a path never changes the HTML of the preview widget
(helper for the frame property of `save_file`). -/
theorem saveToPath_previewHtml (fs : FS) (p : String) (st : EditorState) :
    ((saveToPath fs p st).1).previewHtml = st.previewHtml := by
  unfold saveToPath
  split <;> simp [showError]

/-- The save-as flow never changes the HTML of the preview widget. -/
theorem save_as_file_previewHtml (fs : FS) (saveDialog : Option String)
    (st : EditorState) :
    ((save_as_file fs saveDialog st).1).previewHtml = st.previewHtml := by
  cases saveDialog with
  | none => rfl
  | some p => simpa using saveToPath_previewHtml fs p { st with current_file := some p }

/-- Saving never changes the HTML of the preview widget. -/
theorem save_file_previewHtml (fs : FS) (saveDialog : Option String)
    (st : EditorState) :
    ((save_file fs saveDialog st).1).previewHtml = st.previewHtml := by
  cases h : st.current_file with
  | none => simp [save_file, h, save_as_file_previewHtml]
  | some p => simp [save_file, h, saveToPath_previewHtml]

/-- C1: the spec claims `open` followed by `save` to the same path
reproduces the file byte-for-byte; on the file `a.md` containing `x`, the
code instead writes `x` followed by a newline, because `save_file` writes
`get(1.0, tk.END)`, which includes the implicit final newline of the
`Text` widget.  The file content after open-then-save differs from the
original content. -/
theorem open_save_appends_newline :
    (save_file fsX none (open_file fsX (some "a.md") initialState)).2.read "a.md"
        = ReadResult.ok "x\n"
      ∧ fsX.read "a.md" = ReadResult.ok "x"
      ∧ (ReadResult.ok "x\n" : ReadResult) ≠ ReadResult.ok "x" := by decide

/-- C2: the spec claims a failed `open` leaves prior state unchanged.  For
a path that fails to open this holds, but when the bytes fail to decode as
UTF-8 the `delete` has already run before `f.read()` raises, so the buffer
is cleared: opening `bad.md` over the document `hello` surfaces a
ReadError and leaves `current_file` unchanged, but empties the buffer. -/
theorem open_decode_failure_clears_buffer :
    stDoc.buffer = "hello"
      ∧ open_file fsBad (some "bad.md") stDoc
          = { stDoc with buffer := "", surfaced := [ErrKind.readError] }
      ∧ (open_file fsBad (some "bad.md") stDoc).buffer ≠ stDoc.buffer := by decide

/-- C3: the spec claims `new()` resets the modified flag; the code never
calls `edit_modified(False)` in `new_file`, and the `delete` of the
nonempty buffer sets the flag, so after `new_file` completes (here the
user discards changes) the buffer is empty and `current_file` cleared but
the modified flag is still `true`. -/
theorem new_file_leaves_modified_set :
    (new_file fsX (some false) none stDoc).1.buffer = ""
      ∧ (new_file fsX (some false) none stDoc).1.current_file = none
      ∧ (new_file fsX (some false) none stDoc).1.modified = true := by decide

/-- C4: cancelling the three-way prompt of `new_file` aborts the whole
operation: when the widget reports modifications and the answer is cancel
(`none`), the editor state and the filesystem are returned unchanged. -/
theorem new_file_cancel_unchanged (fs : FS) (saveDialog : Option String)
    (st : EditorState) (h : st.modified = true) :
    new_file fs none saveDialog st = (st, fs) := by
  simp [new_file, h]

/-- Witness for C4 at the concrete modified document `stDoc`. -/
theorem new_file_cancel_unchanged_witness :
    stDoc.modified = true ∧ new_file fsX none none stDoc = (stDoc, fsX) :=
  ⟨rfl, new_file_cancel_unchanged fsX none stDoc rfl⟩

/-- C5: with no `current_file` set, `save_file` performs no write itself
but delegates to the save-as flow; when the user chooses a writable path
`p`, the resulting state has `current_file = p` and the file at `p` holds
the text retrieved from the buffer widget (`get(1.0, tk.END)`). -/
theorem save_file_no_path_delegates (fs : FS) (st : EditorState) (p : String)
    (h1 : st.current_file = none) (h2 : fs.writable p = true) :
    save_file fs (some p) st = save_as_file fs (some p) st
      ∧ (save_file fs (some p) st).1.current_file = some p
      ∧ (save_file fs (some p) st).2.read p = ReadResult.ok (textGetEnd st) := by
  refine ⟨by simp [save_file, h1], ?_, ?_⟩ <;>
    simp [save_file, save_as_file, saveToPath, h1, h2, FS.write, textGetEnd]

/-- Witness for C5: saving the startup document to the chosen path
`new.md`. -/
theorem save_file_no_path_delegates_witness :
    initialState.current_file = none
      ∧ fsX.writable "new.md" = true
      ∧ (save_file fsX (some "new.md") initialState
            = save_as_file fsX (some "new.md") initialState
          ∧ (save_file fsX (some "new.md") initialState).1.current_file = some "new.md"
          ∧ (save_file fsX (some "new.md") initialState).2.read "new.md"
              = ReadResult.ok (textGetEnd initialState)) :=
  ⟨rfl, rfl, save_file_no_path_delegates fsX initialState "new.md" rfl rfl⟩

/-- C6: the render pipeline is total: on every editor state,
`update_preview` succeeds and produces some HTML string for the preview,
changing nothing else (there is no error branch in `update_preview`). -/
theorem update_preview_total (st : EditorState) :
    ∃ html : String, update_preview st = { st with previewHtml := html } :=
  ⟨markdown (textGetEnd st), rfl⟩

/-- C7: rendering is deterministic and a pure function of the buffer text:
any two states with the same buffer content render to identical preview
HTML, whatever their other fields; in particular converting the same text
twice yields identical HTML. -/
theorem update_preview_deterministic (s₁ s₂ : EditorState)
    (h : s₁.buffer = s₂.buffer) :
    (update_preview s₁).previewHtml = (update_preview s₂).previewHtml := by
  simp [update_preview, textGetEnd, h]

/-- Witness for C7: two states with buffer `# Title` but different file
paths, modified flags and previous preview HTML render identically. -/
theorem update_preview_deterministic_witness :
    ({ initialState with buffer := "# Title" } : EditorState).buffer
        = ({ stDoc with buffer := "# Title" } : EditorState).buffer
      ∧ (update_preview { initialState with buffer := "# Title" }).previewHtml
          = (update_preview { stDoc with buffer := "# Title" }).previewHtml :=
  ⟨rfl, update_preview_deterministic _ _ rfl⟩

/-- C8: with buffer content `# Title`, the HTML produced by the render
pipeline contains a level-1 heading element wrapping `Title`. -/
theorem render_title_heading :
    strContains (update_preview { initialState with buffer := "# Title" }).previewHtml
      "<h1>Title</h1>" = true := by decide

/-- C9: in `new_file`, when the user answers the prompt with save and that
save fails (unwritable `current_file`) or is abandoned (save-as dialog
cancelled), `new_file` still proceeds: the buffer is cleared, the file
path is cleared, and nothing was written to the filesystem, so the unsaved
content is lost. -/
theorem new_file_discards_on_failed_save (fs : FS) (saveDialog : Option String)
    (st : EditorState) (p : String) (hm : st.modified = true)
    (hfail : (st.current_file = some p ∧ fs.writable p = false)
        ∨ (st.current_file = none ∧ saveDialog = none)) :
    (new_file fs (some true) saveDialog st).1.buffer = ""
      ∧ (new_file fs (some true) saveDialog st).1.current_file = none
      ∧ (new_file fs (some true) saveDialog st).2 = fs := by
  rcases hfail with ⟨hc, hw⟩ | ⟨hc, hd⟩
  · simp [new_file, save_file, saveToPath, showError, textDeleteAll, hm, hc, hw]
  · subst hd
    simp [new_file, save_file, save_as_file, textDeleteAll, hm, hc]

/-- Witness for C9: the modified document `stDoc`, save chosen, with its
path unwritable. -/
theorem new_file_discards_on_failed_save_witness :
    stDoc.modified = true
      ∧ (stDoc.current_file = some "old.md" ∧ fsBad.writable "old.md" = false)
      ∧ ((new_file fsBad (some true) none stDoc).1.buffer = ""
          ∧ (new_file fsBad (some true) none stDoc).1.current_file = none
          ∧ (new_file fsBad (some true) none stDoc).2 = fsBad) :=
  ⟨rfl, ⟨rfl, rfl⟩,
    new_file_discards_on_failed_save fsBad none stDoc "old.md" rfl (Or.inl ⟨rfl, rfl⟩)⟩

/-- C10: neither `open_file` nor `new_file` triggers the render pipeline:
whatever the dialogs answer and whatever the state, the HTML of the
preview widget is unchanged by both operations (only the key-release
handler calls `update_preview`). -/
theorem open_new_preserve_preview (fs : FS) (dialogPath : Option String)
    (choice : Option Bool) (saveDialog : Option String) (st : EditorState) :
    (open_file fs dialogPath st).previewHtml = st.previewHtml
      ∧ ((new_file fs choice saveDialog st).1).previewHtml = st.previewHtml := by
  constructor
  · cases dialogPath with
    | none => rfl
    | some p =>
      cases h : fs.read p <;>
        simp [open_file, h, showError, textDeleteAll, textInsertEnd]
  · cases hm : st.modified with
    | false => simp [new_file, hm, textDeleteAll]
    | true =>
      cases choice with
      | none => simp [new_file, hm]
      | some c =>
        cases c <;> simp [new_file, hm, textDeleteAll, save_file_previewHtml]
